import Mathlib

set_option maxRecDepth 100000

/-!
Verification of the multi-chain address-checker core (`src/main.py`).

The development shallowly embeds the parts of the program that the claims
are about:

* the three compiled address regexes `RE_EVM`, `RE_BTC`, `RE_TON`
  (main.py lines 52-54) as anchored prefix-plus-character-class matchers
  over `List Char`;
* the format gate of `handle_address` (lines 204-213) as `validate` and
  `handle_address`;
* the four synchronous checkers `sync_check_rpc_native`,
  `sync_check_rpc_token`, `sync_check_btc`, `sync_check_ton`
  (lines 71-169), with every point at which the Python code can raise
  modelled as an explicit error event, so that the try/except structure
  becomes total functions into `Outcome`;
* CPython's numeric display pipeline `value / 1eK` followed by an
  `:.Nf` format specifier.  A CPython `float` is an IEEE-754 binary64
  value; `int / float` first converts the integer to binary64
  (round-to-nearest, ties-to-even) and then performs a correctly rounded
  binary64 division, and `:.Nf` renders the resulting double's exact
  rational value rounded to N fractional digits (round-half-even).
  This is modelled by `floatRound`, `pyDivLit` and `formatFixed` over
  exact integer fractions (`Frac`); overflow to infinity and subnormal
  underflow are outside the magnitudes exercised here and are not
  modelled.
-/

/-- The five asset selectors of the bot (`BNB`, `ETH`, `USDT` (BSC), `BTC`,
`TON`); spec name `AssetKind`. -/
inductive AssetKind where
  | BNB
  | ETH
  | USDT_BSC
  | BTC
  | TON
deriving DecidableEq

/-- The `(ok, message)` pair every checker returns; spec name `Outcome`. -/
structure Outcome where
  ok : Bool
  message : String
deriving DecidableEq

/-! ## Regex embedding

Each of the three patterns of main.py lines 52-54 has the shape
`^(alt1|alt2|...)[class]{lo,hi}$` (with a literal prefix being a single
alternative and `{n}` being `{n,n}`).  `fullmatch` is the meaning of
`re.fullmatch` for such a pattern: some alternative is a prefix of the
input and every remaining character lies in the class, with the number of
remaining characters in `[lo, hi]`. -/

/-- A character class given as a list of inclusive ranges; a single
character `c` is the range `(c, c)`. -/
def inClass (cls : List (Char × Char)) (c : Char) : Bool :=
  cls.any (fun p => decide (p.1 ≤ c) && decide (c ≤ p.2))

/-- An anchored pattern: alternative literal prefixes followed by `lo` to
`hi` repetitions of a character class. -/
structure PCRe where
  alts : List (List Char)
  cls : List (Char × Char)
  lo : Nat
  hi : Nat

/-- `re.fullmatch` semantics for a `PCRe` pattern. -/
def fullmatch (r : PCRe) (s : List Char) : Bool :=
  r.alts.any (fun p =>
    decide (s.take p.length = p) &&
    (decide (r.lo ≤ (s.drop p.length).length) &&
     decide ((s.drop p.length).length ≤ r.hi) &&
     (s.drop p.length).all (inClass r.cls)))

/-- `RE_EVM = re.compile(r"^0x[0-9a-fA-F]{40}$")` (main.py line 52). -/
def RE_EVM : PCRe :=
  { alts := [['0', 'x']]
    cls := [('0', '9'), ('a', 'f'), ('A', 'F')]
    lo := 40
    hi := 40 }

/-- `RE_BTC = re.compile(r"^(bc1|[13])[a-zA-HJ-NP-Z0-9]{25,39}$")`
(main.py line 53).  `[13]` contributes the two one-character
alternatives. -/
def RE_BTC : PCRe :=
  { alts := [['b', 'c', '1'], ['1'], ['3']]
    cls := [('a', 'z'), ('A', 'H'), ('J', 'N'), ('P', 'Z'), ('0', '9')]
    lo := 25
    hi := 39 }

/-- `RE_TON = re.compile(r"^(EQ|UQ)[A-Za-z0-9_-]{46}$")` (main.py line 54). -/
def RE_TON : PCRe :=
  { alts := [['E', 'Q'], ['U', 'Q']]
    cls := [('A', 'Z'), ('a', 'z'), ('0', '9'), ('_', '_'), ('-', '-')]
    lo := 46
    hi := 46 }

/-- The format gate of `handle_address` (main.py lines 205-213): EVM-family
selections are checked against `RE_EVM`, BTC against `RE_BTC`, TON against
`RE_TON`; spec name `AddressValidator.validate`. -/
def validate (k : AssetKind) (s : List Char) : Bool :=
  match k with
  | .BNB => fullmatch RE_EVM s
  | .ETH => fullmatch RE_EVM s
  | .USDT_BSC => fullmatch RE_EVM s
  | .BTC => fullmatch RE_BTC s
  | .TON => fullmatch RE_TON s

/-- The reply texts of the three invalid-format branches
(main.py lines 206, 209, 212).  The source file stores the leading marker
as the literal three characters `‚ùå` (a double-encoded cross mark);
the embedding reproduces the file's exact characters. -/
def invalidFormatMsg : AssetKind → String
  | .BNB => "‚ùå Invalid EVM-style address format (must be 0x...)."
  | .ETH => "‚ùå Invalid EVM-style address format (must be 0x...)."
  | .USDT_BSC => "‚ùå Invalid EVM-style address format (must be 0x...)."
  | .BTC => "‚ùå Invalid BTC address format."
  | .TON => "‚ùå Invalid TON address format."

/-- The dispatch core of `handle_address` (main.py lines 204-231), spec
name `CheckDispatcher.check`: if the format gate rejects, the invalid
format reply is produced by an early `return` before any checker runs;
otherwise the checker bound to the selection runs once and its result is
rendered with the line-231 marker.  The checker is abstracted as the
oracle `fetch`; the second component counts how many times it was
invoked. -/
def handle_address (fetch : AssetKind → List Char → Outcome)
    (k : AssetKind) (s : List Char) : Outcome × Nat :=
  if validate k s = false then
    ({ ok := false, message := invalidFormatMsg k }, 0)
  else
    let r := fetch k s
    ({ ok := r.ok, message := (if r.ok then "‚úÖ " else "‚ùå ") ++ r.message }, 1)

/-! ## CPython numeric display model

`Frac n d` denotes the exact rational number `n / d`; every operation
below keeps `d` positive.  Fractions are kept unreduced so that all
computation is plain integer arithmetic. -/

/-- An exact rational `n / d` with positive denominator, unreduced. -/
structure Frac where
  n : Int
  d : Nat

/-- Round the exact rational `q` to the nearest integer, ties to even
(the rounding used both by binary64 arithmetic and by CPython's fixed
format rendering).  `r2` is twice the fractional part scaled by `q.d`. -/
def rnearestHE (q : Frac) : Int :=
  let f := q.n.fdiv q.d
  let r2 : Int := 2 * (q.n - f * q.d)
  if r2 < q.d then f
  else if (q.d : Int) < r2 then f + 1
  else if f % 2 = 0 then f else f + 1

/-- Halve a positive fraction until it is below `2^53`, recording the
number of halvings; `fuel` bounds the loop (1300 exceeds the binary64
exponent range, so it never runs out on the magnitudes modelled). -/
def shrink : Nat → Frac → Int → Frac × Int
  | 0, x, e => (x, e)
  | fuel + 1, x, e =>
    if x.n < ((2 ^ 53 : Nat) : Int) * x.d then (x, e)
    else shrink fuel ⟨x.n, 2 * x.d⟩ (e + 1)

/-- Double a positive fraction until it reaches `2^52`, recording the
number of doublings (negatively); together with `shrink` this normalises
a positive rational into the binade `[2^52, 2^53)`. -/
def grow : Nat → Frac → Int → Frac × Int
  | 0, x, e => (x, e)
  | fuel + 1, x, e =>
    if ((2 ^ 52 : Nat) : Int) * x.d ≤ x.n then (x, e)
    else grow fuel ⟨2 * x.n, x.d⟩ (e - 1)

/-- Round an exact rational to the nearest IEEE-754 binary64 value
(round-to-nearest, ties-to-even), returned as an exact fraction.  The
53-bit significand is found by normalising `|q|` into `[2^52, 2^53)` and
rounding there.  Overflow and subnormals are outside the modelled
magnitude range. -/
def floatRound (q : Frac) : Frac :=
  if q.n = 0 then ⟨0, 1⟩
  else
    let p := shrink 1300 ⟨|q.n|, q.d⟩ 0
    let p2 := grow 1300 p.1 p.2
    let m : Int := rnearestHE p2.1
    let mag : Frac :=
      if 0 ≤ p2.2 then ⟨m * ((2 ^ p2.2.toNat : Nat) : Int), 1⟩
      else ⟨m, 2 ^ (-p2.2).toNat⟩
    if q.n < 0 then ⟨-mag.n, mag.d⟩ else mag

/-- The exact value of the CPython expression `bal / 1eK` where `bal` is an
`int` and the literal `1eK` is one of `1e8`, `1e9`, `1e18` (all exactly
representable in binary64, so the literal denotes `10^K` exactly): the
integer is converted to binary64 and a correctly rounded binary64 division
is performed. -/
def pyDivLit (bal : Int) (scale : Nat) : Frac :=
  let balF := floatRound ⟨bal, 1⟩
  floatRound ⟨balF.n, balF.d * scale⟩

/-- Left-pad a digit string with zeros to width `d`. -/
def padZeros (d : Nat) (s : String) : String :=
  String.mk (List.replicate (d - s.length) '0') ++ s

/-- CPython's `:.Df` fixed format applied to the exact value `q` of a
binary64 number: the value rounded to `D` fractional digits
(round-half-even) and rendered with exactly `D` digits after the point.
(IEEE signed zero is not modelled; no reachable balance rounds to negative
zero.) -/
def formatFixed (dgts : Nat) (q : Frac) : String :=
  let n : Int := rnearestHE ⟨q.n * ((10 ^ dgts : Nat) : Int), q.d⟩
  let sign := if n < 0 then "-" else ""
  let m := n.natAbs
  sign ++ toString (m / 10 ^ dgts) ++ "." ++ padZeros dgts (toString (m % 10 ^ dgts))

/-! ## REST checker embedding

`requests.get(...)` either raises (connection error, timeout) or yields a
response with a status code and a body; `r.json()` either parses or
raises.  `HttpEvent` enumerates these outcomes; the checkers consume one
event per invocation, mirroring the single GET each performs.  JSON values
are modelled by `JVal` (the integer/string/object fragment the endpoints
use); each Python operation that can raise is modelled as `Except` with
the exception text as the error. -/

/-- The JSON fragment relevant to the two REST endpoints. -/
inductive JVal where
  | jnull
  | jint (n : Int)
  | jstr (s : String)
  | jobj (fields : List (String × JVal))

/-- Python `j.get(key, default)`: on a dict, the value at `key` or
`default`; on any non-dict value the attribute access raises. -/
def dictGetD (j : JVal) (key : String) (default : JVal) : Except String JVal :=
  match j with
  | .jobj fields => .ok ((fields.lookup key).getD default)
  | _ => .error "AttributeError: object has no attribute get"

/-- Python `j.get(key)` with no default: `None` when the key is absent. -/
def jgetOpt (j : JVal) (key : String) : Except String (Option JVal) :=
  match j with
  | .jobj fields => .ok (fields.lookup key)
  | _ => .error "AttributeError: object has no attribute get"

/-- Decimal digit run to a number: `none` unless nonempty and all digits. -/
def digitsToNat : List Char → Option Nat
  | [] => none
  | ds =>
    if ds.all Char.isDigit then
      some (ds.foldl (fun a c => 10 * a + (c.toNat - '0'.toNat)) 0)
    else none

/-- Python `int(v)` for the modelled JSON values: an int passes through, a
string of decimal digits (with optional sign) parses, anything else
raises.  (CPython additionally strips surrounding whitespace and allows
digit-group underscores; those string forms do not occur in the claims and
are modelled as errors.) -/
def pyIntOf : JVal → Except String Int
  | .jint n => .ok n
  | .jstr s =>
    match s.data with
    | '-' :: ds =>
      match digitsToNat ds with
      | some m => .ok (-(m : Int))
      | none => .error ("invalid literal for int() with base 10: " ++ s)
    | '+' :: ds =>
      match digitsToNat ds with
      | some m => .ok (m : Int)
      | none => .error ("invalid literal for int() with base 10: " ++ s)
    | ds =>
      match digitsToNat ds with
      | some m => .ok (m : Int)
      | none => .error ("invalid literal for int() with base 10: " ++ s)
  | _ => .error "int() argument must be a string, a bytes-like object or a number"

/-- Python `a - b` on JSON field values: defined on two ints, a
`TypeError` otherwise. -/
def jSub : JVal → JVal → Except String Int
  | .jint a, .jint b => .ok (a - b)
  | _, _ => .error "TypeError: unsupported operand type(s) for -"

/-- One `requests.get` call: either the call raised (timeout, connection
failure, ...) or a response arrived whose body either parses to a `JVal`
or raises in `r.json()`. -/
inductive HttpEvent where
  | raised (msg : String)
  | response (status : Nat) (body : Except String JVal)

/-- The balance extraction of `sync_check_btc` (main.py lines 148-151):
`j.get("chain_stats", {})`, then `.get("funded_txo_sum", 0)` and
`.get("spent_txo_sum", 0)`, then their difference. -/
def btcExtract (j : JVal) : Except String Int :=
  match dictGetD j "chain_stats" (.jobj []) with
  | .error e => .error e
  | .ok cs =>
    match dictGetD cs "funded_txo_sum" (.jint 0) with
    | .error e => .error e
    | .ok funded =>
      match dictGetD cs "spent_txo_sum" (.jint 0) with
      | .error e => .error e
      | .ok spent => jSub funded spent

/-- `sync_check_btc` (main.py lines 142-154).  The surrounding
`try/except` turns every raise into `("BTC API error: " + str(e))`; a
non-200 status returns before parsing; on success the satoshi difference
is displayed through `bal / 1e8` with 8 fractional digits. -/
def sync_check_btc (ev : HttpEvent) : Outcome :=
  match ev with
  | .raised e => ⟨false, "BTC API error: " ++ e⟩
  | .response status body =>
    if status ≠ 200 then ⟨false, "BTC API HTTP " ++ toString status⟩
    else
      match body with
      | .error e => ⟨false, "BTC API error: " ++ e⟩
      | .ok j =>
        match btcExtract j with
        | .error e => ⟨false, "BTC API error: " ++ e⟩
        | .ok bal => ⟨true, "Balance: " ++ formatFixed 8 (pyDivLit bal (10 ^ 8)) ++ " BTC"⟩

/-- `sync_check_ton` (main.py lines 156-169): non-200 returns the HTTP
status message; a missing `result` field is reported without raising;
`int(result)` may raise and is caught; on success the nanoton amount is
displayed through `nanotons / 1e9` with 9 fractional digits. -/
def sync_check_ton (ev : HttpEvent) : Outcome :=
  match ev with
  | .raised e => ⟨false, "TON API error: " ++ e⟩
  | .response status body =>
    if status ≠ 200 then ⟨false, "TON API HTTP " ++ toString status⟩
    else
      match body with
      | .error e => ⟨false, "TON API error: " ++ e⟩
      | .ok j =>
        match jgetOpt j "result" with
        | .error e => ⟨false, "TON API error: " ++ e⟩
        | .ok none => ⟨false, "TON API result missing"⟩
        | .ok (some v) =>
          match pyIntOf v with
          | .error e => ⟨false, "TON API error: " ++ e⟩
          | .ok nanotons =>
            ⟨true, "Balance: " ++ formatFixed 9 (pyDivLit nanotons (10 ^ 9)) ++ " TON"⟩

/-! ## EVM checker embedding

The web3 interactions of `sync_check_rpc_native` and
`sync_check_rpc_token` are modelled by an environment record holding, for
each library call the Python code makes, either its result or the text of
the exception it raised.  `to_checksum` (lines 60-67) tries the v5 and v6
entry point names of the same checksum computation; the environment holds
the single semantic result. -/

/-- Environment for `sync_check_rpc_native`: one field per fallible web3
interaction, in program order. -/
structure EvmEnv where
  web3Available : Bool
  providerInit : Except String Unit
  isConnected : Except String Bool
  isConnectedLegacy : Except String Bool
  checksum : List Char → Except String (List Char)
  getBalance : List Char → Except String Int
  getTxCount : List Char → Except String Int

/-- The nested connection probe of main.py lines 81-89: `is_connected()`,
falling back to `isConnected()` if that name raises, and `False` if both
raise. -/
def resolveConnected (e1 e2 : Except String Bool) : Bool :=
  match e1 with
  | .ok b => b
  | .error _ =>
    match e2 with
    | .ok b => b
    | .error _ => false

/-- `sync_check_rpc_native` (main.py lines 71-99): web3 presence gate,
provider construction with its own `try/except`, connection probe,
checksum conversion, then balance and transaction count, with the second
`try/except` turning any raise into `("RPC query error: " + str(e))`.
The success message renders `balance / 1e18` with 6 fractional digits. -/
def sync_check_rpc_native (env : EvmEnv) (address : List Char) : Outcome :=
  if env.web3Available = false then ⟨false, "web3 not installed in environment"⟩
  else
    match env.providerInit with
    | .error e => ⟨false, "web3 provider init error: " ++ e⟩
    | .ok _ =>
      if resolveConnected env.isConnected env.isConnectedLegacy = false then
        ⟨false, "Cannot connect to RPC node"⟩
      else
        match env.checksum address with
        | .error e => ⟨false, "RPC query error: " ++ e⟩
        | .ok csAddr =>
          match env.getBalance csAddr with
          | .error e => ⟨false, "RPC query error: " ++ e⟩
          | .ok balance =>
            match env.getTxCount csAddr with
            | .error e => ⟨false, "RPC query error: " ++ e⟩
            | .ok txcount =>
              ⟨true, "Balance: " ++ formatFixed 6 (pyDivLit balance (10 ^ 18)) ++
                " (native), txs: " ++ toString txcount⟩

/-- Environment for `sync_check_rpc_token`: as `EvmEnv`, with the contract
construction and `balanceOf` call folded into one fallible interaction
taking the checksummed contract and owner addresses. -/
structure TokenEnv where
  web3Available : Bool
  providerInit : Except String Unit
  isConnected : Except String Bool
  isConnectedLegacy : Except String Bool
  checksum : List Char → Except String (List Char)
  balanceOf : List Char → List Char → Except String Int

/-- The success message of `sync_check_rpc_token` (main.py line 138): the
raw integer token balance, plus `bal / 1e18` rendered with 6 fractional
digits as an assumed-18-decimals approximation. -/
def tokenBalanceMsg (bal : Int) : String :=
  "Token balance (raw): " ++ toString bal ++ "  (display approx: " ++
    formatFixed 6 (pyDivLit bal (10 ^ 18)) ++ ")"

/-- `sync_check_rpc_token` (main.py lines 101-140): the same gates as the
native checker, then checksum of the target address and of the token
contract, then the contract `balanceOf` call, with any raise in the main
block turned into `("Token query error: " + str(e))`. -/
def sync_check_rpc_token (env : TokenEnv) (address tokenContract : List Char) : Outcome :=
  if env.web3Available = false then ⟨false, "web3 not installed in environment"⟩
  else
    match env.providerInit with
    | .error e => ⟨false, "web3 provider init error: " ++ e⟩
    | .ok _ =>
      if resolveConnected env.isConnected env.isConnectedLegacy = false then
        ⟨false, "Cannot connect to RPC node"⟩
      else
        match env.checksum address with
        | .error e => ⟨false, "Token query error: " ++ e⟩
        | .ok csAddr =>
          match env.checksum tokenContract with
          | .error e => ⟨false, "Token query error: " ++ e⟩
          | .ok csToken =>
            match env.balanceOf csToken csAddr with
            | .error e => ⟨false, "Token query error: " ++ e⟩
            | .ok bal => ⟨true, tokenBalanceMsg bal⟩

/-! ## Spec-side predicates and success conditions

These definitions follow the words of the specification (for the
refinement claims about the address grammars) or package the "every
library interaction succeeded" condition of a checker (for the error
propagation claim). -/

/-- `sub` occurs as a substring of `s`. -/
def mentions (sub s : String) : Prop := ∃ a b : String, s = a ++ sub ++ b

/-- The family name each invalid-format reply refers to. -/
def kindTag : AssetKind → String
  | .BNB => "EVM-style"
  | .ETH => "EVM-style"
  | .USDT_BSC => "EVM-style"
  | .BTC => "BTC"
  | .TON => "TON"

/-- Spec wording: a hexadecimal character, either case. -/
def isHexDigitSpec (c : Char) : Prop :=
  ('0' ≤ c ∧ c ≤ '9') ∨ ('a' ≤ c ∧ c ≤ 'f') ∨ ('A' ≤ c ∧ c ≤ 'F')

/-- Spec wording for the EVM grammar: `0x` followed by exactly 40
hexadecimal characters. -/
def specEVM (s : List Char) : Prop :=
  ∃ t : List Char, s = '0' :: 'x' :: t ∧ t.length = 40 ∧ ∀ c ∈ t, isHexDigitSpec c

/-- Spec wording: a character from `A-Z`, `a-z`, `0-9`, `_` or `-`. -/
def isTonTailChar (c : Char) : Prop :=
  ('A' ≤ c ∧ c ≤ 'Z') ∨ ('a' ≤ c ∧ c ≤ 'z') ∨ ('0' ≤ c ∧ c ≤ '9') ∨ c = '_' ∨ c = '-'

/-- Spec wording for the TON grammar: `EQ` or `UQ` followed by exactly 46
characters from `[A-Za-z0-9_-]`. -/
def specTON (s : List Char) : Prop :=
  ∃ t : List Char, (s = 'E' :: 'Q' :: t ∨ s = 'U' :: 'Q' :: t) ∧ t.length = 46 ∧
    ∀ c ∈ t, isTonTailChar c

/-- Every fallible interaction of `sync_check_rpc_native` succeeded. -/
def EvmEnv.allCallsOk (env : EvmEnv) (address : List Char) : Prop :=
  env.web3Available = true ∧ (∃ u, env.providerInit = .ok u) ∧
    resolveConnected env.isConnected env.isConnectedLegacy = true ∧
    ∃ cs, env.checksum address = .ok cs ∧
      (∃ b, env.getBalance cs = .ok b) ∧ (∃ t, env.getTxCount cs = .ok t)

/-- Every fallible interaction of `sync_check_rpc_token` succeeded. -/
def TokenEnv.allCallsOk (env : TokenEnv) (address tokenContract : List Char) : Prop :=
  env.web3Available = true ∧ (∃ u, env.providerInit = .ok u) ∧
    resolveConnected env.isConnected env.isConnectedLegacy = true ∧
    ∃ csA, env.checksum address = .ok csA ∧
      ∃ csT, env.checksum tokenContract = .ok csT ∧
        ∃ b, env.balanceOf csT csA = .ok b

/-- The BTC fetch reached a 200 response whose body parsed and whose
field extraction raised nothing. -/
def btcFetchOk (ev : HttpEvent) : Prop :=
  ∃ j bal, ev = .response 200 (.ok j) ∧ btcExtract j = .ok bal

/-- The TON fetch reached a 200 response whose body parsed, carried a
`result` field, and whose `int(result)` conversion succeeded. -/
def tonFetchOk (ev : HttpEvent) : Prop :=
  ∃ j v n, ev = .response 200 (.ok j) ∧ jgetOpt j "result" = .ok (some v) ∧
    pyIntOf v = .ok n

/-! ## Helper lemmas -/

/-- Characterisation of `fullmatch`: some alternative followed by a tail of
admissible length whose characters all lie in the class. -/
theorem fullmatch_eq_true_iff (r : PCRe) (s : List Char) :
    fullmatch r s = true ↔
      ∃ p ∈ r.alts, ∃ t, s = p ++ t ∧ r.lo ≤ t.length ∧ t.length ≤ r.hi ∧
        ∀ c ∈ t, inClass r.cls c = true := by
  unfold fullmatch
  rw [List.any_eq_true]
  constructor
  · rintro ⟨p, hp, hcond⟩
    simp only [Bool.and_eq_true, decide_eq_true_eq, List.all_eq_true] at hcond
    obtain ⟨htake, ⟨hlo, hhi⟩, hall⟩ := hcond
    refine ⟨p, hp, s.drop p.length, ?_, hlo, hhi, hall⟩
    conv_lhs => rw [← List.take_append_drop p.length s]
    rw [htake]
  · rintro ⟨p, hp, t, rfl, hlo, hhi, hall⟩
    refine ⟨p, hp, ?_⟩
    simp only [Bool.and_eq_true, decide_eq_true_eq, List.all_eq_true]
    rw [List.take_left, List.drop_left]
    exact ⟨rfl, ⟨hlo, hhi⟩, hall⟩

/-- Two strings with distinct fixed beginnings differ whatever follows. -/
theorem append_ne_of_head_ne (p q x y : String)
    (hlen : p.data.length ≤ q.data.length)
    (h : q.data.take p.data.length ≠ p.data) :
    p ++ x ≠ q ++ y := by
  intro he
  apply h
  have hd : p.data ++ x.data = q.data ++ y.data := by
    have h2 := congrArg String.data he
    rwa [String.data_append, String.data_append] at h2
  have ht := congrArg (fun l => List.take p.data.length l) hd
  simp only at ht
  rw [List.take_left, List.take_append_of_le_length hlen] at ht
  exact ht.symm

/-- A string with a nonempty first component is nonempty. -/
theorem append_ne_empty_left (s t : String) (hs : s.length ≠ 0) : s ++ t ≠ "" := by
  intro h
  have hl : (s ++ t).length = 0 := by rw [h]; rfl
  rw [String.length_append] at hl
  omega

/-- The EVM character class is exactly the spec's hex alphabet. -/
theorem inClass_evm_iff (c : Char) : inClass RE_EVM.cls c = true ↔ isHexDigitSpec c := by
  simp only [inClass, RE_EVM, isHexDigitSpec, List.any_cons, List.any_nil,
    Bool.or_eq_true, Bool.and_eq_true, decide_eq_true_eq, Bool.false_eq_true, or_false]

/-- The TON character class is exactly the spec's alphabet. -/
theorem inClass_ton_iff (c : Char) : inClass RE_TON.cls c = true ↔ isTonTailChar c := by
  simp only [inClass, RE_TON, isTonTailChar, List.any_cons, List.any_nil,
    Bool.or_eq_true, Bool.and_eq_true, decide_eq_true_eq, Bool.false_eq_true, or_false]
  constructor
  · rintro (h | h | h | ⟨h1, h2⟩ | ⟨h1, h2⟩)
    · exact Or.inl h
    · exact Or.inr (Or.inl h)
    · exact Or.inr (Or.inr (Or.inl h))
    · exact Or.inr (Or.inr (Or.inr (Or.inl (le_antisymm h1 h2).symm)))
    · exact Or.inr (Or.inr (Or.inr (Or.inr (le_antisymm h1 h2).symm)))
  · rintro (h | h | h | rfl | rfl)
    · exact Or.inl h
    · exact Or.inr (Or.inl h)
    · exact Or.inr (Or.inr (Or.inl h))
    · exact Or.inr (Or.inr (Or.inr (Or.inl ⟨le_refl _, le_refl _⟩)))
    · exact Or.inr (Or.inr (Or.inr (Or.inr ⟨le_refl _, le_refl _⟩)))

/-- The EVM regex accepts exactly the spec's EVM grammar. -/
theorem fullmatch_evm_iff_spec (s : List Char) :
    fullmatch RE_EVM s = true ↔ specEVM s := by
  rw [fullmatch_eq_true_iff]
  constructor
  · rintro ⟨p, hp, t, rfl, hlo, hhi, hall⟩
    simp only [RE_EVM, List.mem_singleton] at hp
    subst hp
    refine ⟨t, rfl, ?_, fun c hc => (inClass_evm_iff c).mp (hall c hc)⟩
    simp only [RE_EVM] at hlo hhi
    omega
  · rintro ⟨t, rfl, hlen, hhex⟩
    refine ⟨['0', 'x'], by simp [RE_EVM], t, rfl, ?_, ?_,
      fun c hc => (inClass_evm_iff c).mpr (hhex c hc)⟩
    · simp [RE_EVM, hlen]
    · simp [RE_EVM, hlen]

/-- The TON regex accepts exactly the spec's TON grammar. -/
theorem fullmatch_ton_iff_spec (s : List Char) :
    fullmatch RE_TON s = true ↔ specTON s := by
  rw [fullmatch_eq_true_iff]
  constructor
  · rintro ⟨p, hp, t, rfl, hlo, hhi, hall⟩
    simp only [RE_TON, List.mem_cons, List.mem_singleton, List.not_mem_nil, or_false] at hp
    have hlen : t.length = 46 := by
      simp only [RE_TON] at hlo hhi
      omega
    rcases hp with rfl | rfl
    · exact ⟨t, Or.inl rfl, hlen, fun c hc => (inClass_ton_iff c).mp (hall c hc)⟩
    · exact ⟨t, Or.inr rfl, hlen, fun c hc => (inClass_ton_iff c).mp (hall c hc)⟩
  · rintro ⟨t, hpre, hlen, hchr⟩
    rcases hpre with rfl | rfl
    · exact ⟨['E', 'Q'], by simp [RE_TON], t, rfl, by simp [RE_TON, hlen],
        by simp [RE_TON, hlen], fun c hc => (inClass_ton_iff c).mpr (hchr c hc)⟩
    · exact ⟨['U', 'Q'], by simp [RE_TON], t, rfl, by simp [RE_TON, hlen],
        by simp [RE_TON, hlen], fun c hc => (inClass_ton_iff c).mpr (hchr c hc)⟩

/-- The native checker succeeds exactly when every library interaction
succeeded. -/
theorem native_ok_iff (env : EvmEnv) (addr : List Char) :
    (sync_check_rpc_native env addr).ok = true ↔ env.allCallsOk addr := by
  unfold sync_check_rpc_native EvmEnv.allCallsOk
  cases hw : env.web3Available
  · simp
  · cases hp : env.providerInit
    · simp
    · cases hc : resolveConnected env.isConnected env.isConnectedLegacy
      · simp
      · cases hcs : env.checksum addr
        · simp
        · rename_i cs
          cases hb : env.getBalance cs
          · simp [hcs, hb]
          · cases ht : env.getTxCount cs
            · simp [hcs, hb, ht]
            · simp [hcs, hb, ht]

/-- Every message the native checker can produce is nonempty. -/
theorem native_msg_ne (env : EvmEnv) (addr : List Char) :
    (sync_check_rpc_native env addr).message ≠ "" := by
  unfold sync_check_rpc_native
  by_cases hw : env.web3Available = false
  · simp only [if_pos hw]
    decide
  · rw [if_neg hw]
    cases hp : env.providerInit with
    | error e => simp only [hp]; exact append_ne_empty_left _ _ (by decide)
    | ok u =>
      simp only [hp]
      by_cases hc : resolveConnected env.isConnected env.isConnectedLegacy = false
      · rw [if_pos hc]
        decide
      · rw [if_neg hc]
        cases hcs : env.checksum addr with
        | error e => simp only [hcs]; exact append_ne_empty_left _ _ (by decide)
        | ok cs =>
          simp only [hcs]
          cases hb : env.getBalance cs with
          | error e => simp only [hb]; exact append_ne_empty_left _ _ (by decide)
          | ok bal =>
            simp only [hb]
            cases ht : env.getTxCount cs with
            | error e => simp only [ht]; exact append_ne_empty_left _ _ (by decide)
            | ok tx =>
              simp only [ht]
              refine append_ne_empty_left _ _ ?_
              rw [String.length_append, String.length_append]
              have h9 : ("Balance: " : String).length = 9 := rfl
              omega

/-- The token checker succeeds exactly when every library interaction
succeeded. -/
theorem token_ok_iff (env : TokenEnv) (addr tok : List Char) :
    (sync_check_rpc_token env addr tok).ok = true ↔ env.allCallsOk addr tok := by
  unfold sync_check_rpc_token TokenEnv.allCallsOk
  cases hw : env.web3Available
  · simp
  · cases hp : env.providerInit
    · simp
    · cases hc : resolveConnected env.isConnected env.isConnectedLegacy
      · simp
      · cases hcsA : env.checksum addr
        · simp
        · rename_i csA
          cases hcsT : env.checksum tok
          · simp [hcsA, hcsT]
          · rename_i csT
            cases hb : env.balanceOf csT csA
            · simp [hcsA, hcsT, hb]
            · simp [hcsA, hcsT, hb]

/-- Every message the token checker can produce is nonempty. -/
theorem token_msg_ne (env : TokenEnv) (addr tok : List Char) :
    (sync_check_rpc_token env addr tok).message ≠ "" := by
  unfold sync_check_rpc_token
  by_cases hw : env.web3Available = false
  · simp only [if_pos hw]
    decide
  · rw [if_neg hw]
    cases hp : env.providerInit with
    | error e => simp only [hp]; exact append_ne_empty_left _ _ (by decide)
    | ok u =>
      simp only [hp]
      by_cases hc : resolveConnected env.isConnected env.isConnectedLegacy = false
      · rw [if_pos hc]
        decide
      · rw [if_neg hc]
        cases hcsA : env.checksum addr with
        | error e => simp only [hcsA]; exact append_ne_empty_left _ _ (by decide)
        | ok csA =>
          simp only [hcsA]
          cases hcsT : env.checksum tok with
          | error e => simp only [hcsT]; exact append_ne_empty_left _ _ (by decide)
          | ok csT =>
            simp only [hcsT]
            cases hb : env.balanceOf csT csA with
            | error e => simp only [hb]; exact append_ne_empty_left _ _ (by decide)
            | ok bal =>
              simp only [hb]
              show tokenBalanceMsg _ ≠ ""
              unfold tokenBalanceMsg
              refine append_ne_empty_left _ _ ?_
              rw [String.length_append, String.length_append, String.length_append]
              have h21 : ("Token balance (raw): " : String).length = 21 := rfl
              omega

/-- The BTC REST checker succeeds exactly when the fetch, parse and
extraction all succeeded. -/
theorem btc_ok_iff (ev : HttpEvent) :
    (sync_check_btc ev).ok = true ↔ btcFetchOk ev := by
  cases ev with
  | raised e => simp [sync_check_btc, btcFetchOk]
  | response status body =>
    unfold btcFetchOk
    simp only [sync_check_btc]
    by_cases hs : status = 200
    · subst hs
      rw [if_neg (by decide)]
      cases body with
      | error e => simp
      | ok j =>
        cases hx : btcExtract j with
        | error e => simp [hx]
        | ok bal => simp [hx]
    · rw [if_pos hs]
      simp [hs]

/-- Every message the BTC REST checker can produce is nonempty. -/
theorem btc_msg_ne (ev : HttpEvent) : (sync_check_btc ev).message ≠ "" := by
  cases ev with
  | raised e => exact append_ne_empty_left _ _ (by decide)
  | response status body =>
    simp only [sync_check_btc]
    by_cases hs : status = 200
    · subst hs
      rw [if_neg (by decide)]
      cases body with
      | error e => exact append_ne_empty_left _ _ (by decide)
      | ok j =>
        cases hx : btcExtract j with
        | error e => simp only [hx]; exact append_ne_empty_left _ _ (by decide)
        | ok bal =>
          simp only [hx]
          refine append_ne_empty_left _ _ ?_
          rw [String.length_append]
          have h9 : ("Balance: " : String).length = 9 := rfl
          omega
    · rw [if_pos hs]
      exact append_ne_empty_left _ _ (by decide)

/-- The TON REST checker succeeds exactly when the fetch, parse, field
presence and integer conversion all succeeded. -/
theorem ton_ok_iff (ev : HttpEvent) :
    (sync_check_ton ev).ok = true ↔ tonFetchOk ev := by
  cases ev with
  | raised e => simp [sync_check_ton, tonFetchOk]
  | response status body =>
    unfold tonFetchOk
    simp only [sync_check_ton]
    by_cases hs : status = 200
    · subst hs
      rw [if_neg (by decide)]
      cases body with
      | error e => simp
      | ok j =>
        cases hg : jgetOpt j "result" with
        | error e => simp [hg]
        | ok ov =>
          cases ov with
          | none => simp [hg]
          | some v =>
            cases hi : pyIntOf v with
            | error e => simp [hg, hi]
            | ok n => simp [hg, hi]
    · rw [if_pos hs]
      simp [hs]

/-- Every message the TON REST checker can produce is nonempty. -/
theorem ton_msg_ne (ev : HttpEvent) : (sync_check_ton ev).message ≠ "" := by
  cases ev with
  | raised e => exact append_ne_empty_left _ _ (by decide)
  | response status body =>
    simp only [sync_check_ton]
    by_cases hs : status = 200
    · subst hs
      rw [if_neg (by decide)]
      cases body with
      | error e => exact append_ne_empty_left _ _ (by decide)
      | ok j =>
        cases hg : jgetOpt j "result" with
        | error e => simp only [hg]; exact append_ne_empty_left _ _ (by decide)
        | ok ov =>
          cases ov with
          | none => simp only [hg]; decide
          | some v =>
            cases hi : pyIntOf v with
            | error e => simp only [hg, hi]; exact append_ne_empty_left _ _ (by decide)
            | ok n =>
              simp only [hg, hi]
              refine append_ne_empty_left _ _ ?_
              rw [String.length_append]
              have h9 : ("Balance: " : String).length = 9 := rfl
              omega
    · rw [if_pos hs]
      exact append_ne_empty_left _ _ (by decide)

instance (c : Char) : Decidable (isHexDigitSpec c) := by
  unfold isHexDigitSpec
  exact inferInstance

instance (c : Char) : Decidable (isTonTailChar c) := by
  unfold isTonTailChar
  exact inferInstance

/-! ## Claims -/

/-- C1 counterexample: the BTC character class `[a-zA-HJ-NP-Z0-9]` contains
`0-9`, so `validate(BTC, s)` accepts a string whose tail consists entirely
of the character `0`, contradicting the claim that no accepted tail
contains `0`, `I`, `O` or `l`. -/
theorem btc_tail_exclusion_counterexample :
    validate .BTC ('1' :: List.replicate 25 '0') = true ∧
    '0' ∈ ('1' :: List.replicate 25 '0').drop 1 := by decide

/-- C1 (amended): a string accepted by `validate(BTC, ·)` contains no `I`
and no `O` anywhere (in particular not in the tail), but `0` and `l` are
not excluded: the class as written contains `0-9` and `a-z`, and tails
consisting of `0`s or of `l`s are accepted. -/
theorem btc_accepted_has_no_I_or_O :
    (∀ s : List Char, validate .BTC s = true → 'I' ∉ s ∧ 'O' ∉ s) ∧
    validate .BTC ('1' :: List.replicate 25 '0') = true ∧
    validate .BTC ('3' :: List.replicate 25 'l') = true := by
  refine ⟨?_, by decide, by decide⟩
  intro s hv
  have hv' : fullmatch RE_BTC s = true := hv
  rw [fullmatch_eq_true_iff] at hv'
  obtain ⟨p, hp, t, rfl, -, -, hall⟩ := hv'
  simp only [RE_BTC, List.mem_cons, List.not_mem_nil, or_false] at hp
  constructor
  · intro hmem
    rcases List.mem_append.mp hmem with hmp | hmt
    · rcases hp with rfl | rfl | rfl
      · exact absurd hmp (by decide)
      · exact absurd hmp (by decide)
      · exact absurd hmp (by decide)
    · exact absurd (hall _ hmt) (by decide)
  · intro hmem
    rcases List.mem_append.mp hmem with hmp | hmt
    · rcases hp with rfl | rfl | rfl
      · exact absurd hmp (by decide)
      · exact absurd hmp (by decide)
      · exact absurd hmp (by decide)
    · exact absurd (hall _ hmt) (by decide)

/-- Witness for the amended C1 at a concrete accepted address. -/
theorem btc_accepted_has_no_I_or_O_witness :
    'I' ∉ ('1' :: List.replicate 25 'a') ∧ 'O' ∉ ('1' :: List.replicate 25 'a') :=
  btc_accepted_has_no_I_or_O.1 ('1' :: List.replicate 25 'a') (by decide)

/-- C6: for the EVM-family kinds (BNB, ETH, USDT_BSC), `validate` accepts
exactly `0x` followed by 40 hex characters; in particular tails of length
39 or 41, and tails containing a non-hex character, are rejected. -/
theorem evm_validate_iff_spec :
    (∀ (k : AssetKind) (s : List Char), k = .BNB ∨ k = .ETH ∨ k = .USDT_BSC →
        (validate k s = true ↔ specEVM s)) ∧
    (∀ (k : AssetKind) (t : List Char), k = .BNB ∨ k = .ETH ∨ k = .USDT_BSC →
        t.length = 39 ∨ t.length = 41 → validate k ('0' :: 'x' :: t) = false) ∧
    (∀ (k : AssetKind) (t : List Char) (c : Char), k = .BNB ∨ k = .ETH ∨ k = .USDT_BSC →
        c ∈ t → ¬ isHexDigitSpec c → validate k ('0' :: 'x' :: t) = false) := by
  have hval : ∀ (k : AssetKind), k = .BNB ∨ k = .ETH ∨ k = .USDT_BSC →
      ∀ s, validate k s = fullmatch RE_EVM s := by
    rintro k (rfl | rfl | rfl) s <;> rfl
  refine ⟨?_, ?_, ?_⟩
  · intro k s hk
    rw [hval k hk s]
    exact fullmatch_evm_iff_spec s
  · intro k t hk hlen
    rw [hval k hk]
    cases hb : fullmatch RE_EVM ('0' :: 'x' :: t)
    · rfl
    · exfalso
      obtain ⟨t', heq, hlen', -⟩ := (fullmatch_evm_iff_spec _).mp hb
      obtain ⟨-, ht'⟩ := List.cons.inj heq
      obtain ⟨-, ht''⟩ := List.cons.inj ht'
      subst ht''
      rcases hlen with h | h <;> omega
  · intro k t c hk hc hhex
    rw [hval k hk]
    cases hb : fullmatch RE_EVM ('0' :: 'x' :: t)
    · rfl
    · exfalso
      obtain ⟨t', heq, -, hall⟩ := (fullmatch_evm_iff_spec _).mp hb
      obtain ⟨-, ht'⟩ := List.cons.inj heq
      obtain ⟨-, ht''⟩ := List.cons.inj ht'
      subst ht''
      exact hhex (hall c hc)

/-- Witness for C6 at concrete addresses: 40 hex chars accepted, 39
rejected, a `g` in the tail rejected. -/
theorem evm_validate_iff_spec_witness :
    validate .ETH ('0' :: 'x' :: List.replicate 40 'a') = true ∧
    validate .BNB ('0' :: 'x' :: List.replicate 39 'a') = false ∧
    validate .USDT_BSC ('0' :: 'x' :: List.replicate 40 'g') = false := by
  refine ⟨?_, ?_, ?_⟩
  · exact (evm_validate_iff_spec.1 .ETH _ (Or.inr (Or.inl rfl))).mpr
      ⟨List.replicate 40 'a', rfl, by decide, by decide⟩
  · exact evm_validate_iff_spec.2.1 .BNB _ (Or.inl rfl) (Or.inl (by decide))
  · exact evm_validate_iff_spec.2.2 .USDT_BSC _ 'g' (Or.inr (Or.inr rfl))
      (by decide) (by decide)

/-- C7: `validate(TON, ·)` accepts exactly `EQ` or `UQ` followed by 46
characters from `[A-Za-z0-9_-]`; `EQ` followed by 45 such characters is
rejected, and every accepted string starts with `EQ` or `UQ`. -/
theorem ton_validate_iff_spec :
    (∀ s : List Char, validate .TON s = true ↔ specTON s) ∧
    (∀ t : List Char, t.length = 45 → validate .TON ('E' :: 'Q' :: t) = false) ∧
    (∀ s : List Char, validate .TON s = true →
        s.take 2 = ['E', 'Q'] ∨ s.take 2 = ['U', 'Q']) := by
  refine ⟨fun s => fullmatch_ton_iff_spec s, ?_, ?_⟩
  · intro t hlen
    cases hb : fullmatch RE_TON ('E' :: 'Q' :: t)
    · exact hb
    · exfalso
      obtain ⟨t', hpre, hlen', -⟩ := (fullmatch_ton_iff_spec _).mp hb
      rcases hpre with heq | heq
      · obtain ⟨-, ht'⟩ := List.cons.inj heq
        obtain ⟨-, ht''⟩ := List.cons.inj ht'
        subst ht''
        omega
      · exact absurd (List.cons.inj heq).1 (by decide)
  · intro s hv
    obtain ⟨t, hpre, -, -⟩ := (fullmatch_ton_iff_spec s).mp hv
    rcases hpre with rfl | rfl
    · exact Or.inl rfl
    · exact Or.inr rfl

/-- Witness for C7 at concrete addresses: a 46-character tail accepted, a
45-character tail rejected. -/
theorem ton_validate_iff_spec_witness :
    validate .TON ('E' :: 'Q' :: List.replicate 46 '_') = true ∧
    validate .TON ('E' :: 'Q' :: List.replicate 45 'a') = false := by
  constructor
  · exact (ton_validate_iff_spec.1 _).mpr
      ⟨List.replicate 46 '_', Or.inl rfl, by decide, by decide⟩
  · exact ton_validate_iff_spec.2.1 _ (by decide)

/-- C3: whenever the format gate rejects, `handle_address` replies with the
invalid-format message for that kind — which names the rejected format
family — and the checker oracle is invoked zero times. -/
theorem invalid_format_short_circuits (fetch : AssetKind → List Char → Outcome)
    (k : AssetKind) (s : List Char) (h : validate k s = false) :
    handle_address fetch k s = ({ ok := false, message := invalidFormatMsg k }, 0) ∧
    mentions "Invalid" (invalidFormatMsg k) ∧
    mentions "format" (invalidFormatMsg k) ∧
    mentions (kindTag k) (invalidFormatMsg k) := by
  refine ⟨?_, ?_, ?_, ?_⟩
  · unfold handle_address
    rw [if_pos h]
  · cases k
    · exact ⟨"‚ùå ", " EVM-style address format (must be 0x...).", by decide⟩
    · exact ⟨"‚ùå ", " EVM-style address format (must be 0x...).", by decide⟩
    · exact ⟨"‚ùå ", " EVM-style address format (must be 0x...).", by decide⟩
    · exact ⟨"‚ùå ", " BTC address format.", by decide⟩
    · exact ⟨"‚ùå ", " TON address format.", by decide⟩
  · cases k
    · exact ⟨"‚ùå Invalid EVM-style address ", " (must be 0x...).", by decide⟩
    · exact ⟨"‚ùå Invalid EVM-style address ", " (must be 0x...).", by decide⟩
    · exact ⟨"‚ùå Invalid EVM-style address ", " (must be 0x...).", by decide⟩
    · exact ⟨"‚ùå Invalid BTC address ", ".", by decide⟩
    · exact ⟨"‚ùå Invalid TON address ", ".", by decide⟩
  · cases k
    · exact ⟨"‚ùå Invalid ", " address format (must be 0x...).", by decide⟩
    · exact ⟨"‚ùå Invalid ", " address format (must be 0x...).", by decide⟩
    · exact ⟨"‚ùå Invalid ", " address format (must be 0x...).", by decide⟩
    · exact ⟨"‚ùå Invalid ", " address format.", by decide⟩
    · exact ⟨"‚ùå Invalid ", " address format.", by decide⟩

/-- Witness for C3: a malformed BTC address is rejected with no fetch. -/
theorem invalid_format_short_circuits_witness :
    (handle_address (fun _ _ => { ok := true, message := "stub" }) .BTC ['x']).2 = 0 ∧
    (handle_address (fun _ _ => { ok := true, message := "stub" }) .BTC ['x']).1.ok = false := by
  have h := invalid_format_short_circuits (fun _ _ => { ok := true, message := "stub" })
    .BTC ['x'] (by decide)
  rw [h.1]
  exact ⟨rfl, rfl⟩

/-- C5: a non-200 REST response yields a failure message carrying the
status code, this message differs from every parse-failure message, and a
200 response with an unparseable body yields the parse-failure message. -/
theorem rest_failure_kinds_distinguishable :
    (∀ (st : Nat) (body : Except String JVal), st ≠ 200 →
        sync_check_btc (.response st body) =
          { ok := false, message := "BTC API HTTP " ++ toString st } ∧
        mentions (toString st) ("BTC API HTTP " ++ toString st)) ∧
    (∀ e : String, sync_check_btc (.response 200 (.error e)) =
        { ok := false, message := "BTC API error: " ++ e }) ∧
    (∀ (st : Nat) (e : String), "BTC API HTTP " ++ toString st ≠ "BTC API error: " ++ e) ∧
    (∀ (st : Nat) (body : Except String JVal), st ≠ 200 →
        sync_check_ton (.response st body) =
          { ok := false, message := "TON API HTTP " ++ toString st } ∧
        mentions (toString st) ("TON API HTTP " ++ toString st)) ∧
    (∀ e : String, sync_check_ton (.response 200 (.error e)) =
        { ok := false, message := "TON API error: " ++ e }) ∧
    (∀ (st : Nat) (e : String), "TON API HTTP " ++ toString st ≠ "TON API error: " ++ e) := by
  refine ⟨?_, ?_, ?_, ?_, ?_, ?_⟩
  · intro st body hst
    constructor
    · simp only [sync_check_btc]
      rw [if_pos hst]
    · exact ⟨"BTC API HTTP ", "", (String.append_empty _).symm⟩
  · intro e
    simp [sync_check_btc]
  · intro st e
    exact append_ne_of_head_ne _ _ _ _ (by decide) (by decide)
  · intro st body hst
    constructor
    · simp only [sync_check_ton]
      rw [if_pos hst]
    · exact ⟨"TON API HTTP ", "", (String.append_empty _).symm⟩
  · intro e
    simp [sync_check_ton]
  · intro st e
    exact append_ne_of_head_ne _ _ _ _ (by decide) (by decide)

/-- Witness for C5 at HTTP 500 for both REST clients. -/
theorem rest_failure_kinds_distinguishable_witness :
    sync_check_btc (.response 500 (.ok (.jobj []))) =
      { ok := false, message := "BTC API HTTP 500" } ∧
    sync_check_ton (.response 500 (.ok (.jobj []))) =
      { ok := false, message := "TON API HTTP 500" } ∧
    "BTC API HTTP 500" ≠ "BTC API error: parse failure" := by
  refine ⟨?_, ?_, ?_⟩
  · rw [(rest_failure_kinds_distinguishable.1 500 (.ok (.jobj [])) (by decide)).1]
    decide
  · rw [(rest_failure_kinds_distinguishable.2.2.2.1 500 (.ok (.jobj [])) (by decide)).1]
    decide
  · have h := rest_failure_kinds_distinguishable.2.2.1 500 "parse failure"
    intro he
    apply h
    rw [show "BTC API HTTP " ++ toString 500 = "BTC API HTTP 500" from by decide, he]
    decide

/-- C8: the satoshi magnitude 100000000 at scale `1e8` is displayed as
exactly `1.00000000`, both by the formatter alone and end to end by the
BTC checker. -/
theorem btc_format_one_btc :
    formatFixed 8 (pyDivLit 100000000 (10 ^ 8)) = "1.00000000" ∧
    sync_check_btc (.response 200 (.ok (.jobj [("chain_stats",
        .jobj [("funded_txo_sum", .jint 100000000), ("spent_txo_sum", .jint 0)])]))) =
      { ok := true, message := "Balance: 1.00000000 BTC" } := by
  constructor
  · decide
  · decide

/-- C9: a 200 BTC response with integer `chain_stats` fields yields a
successful outcome displaying `funded_txo_sum - spent_txo_sum`, for every
pair of values — including pairs whose difference is negative. -/
theorem btc_balance_is_funded_minus_spent (funded spent : Int) :
    sync_check_btc (.response 200 (.ok (.jobj [("chain_stats",
        .jobj [("funded_txo_sum", .jint funded), ("spent_txo_sum", .jint spent)])]))) =
      { ok := true,
        message := "Balance: " ++ formatFixed 8 (pyDivLit (funded - spent) (10 ^ 8)) ++ " BTC" } := by
  rfl

/-- C10: a 200 BTC response whose JSON object lacks `chain_stats`, or lacks
either sum field inside it, substitutes 0 for each missing value and
reports a successful balance rather than a malformed-response failure. -/
theorem btc_missing_fields_default_zero :
    (∀ fields : List (String × JVal), fields.lookup "chain_stats" = none →
        sync_check_btc (.response 200 (.ok (.jobj fields))) =
          { ok := true, message := "Balance: 0.00000000 BTC" }) ∧
    (∀ (fields cfields : List (String × JVal)),
        fields.lookup "chain_stats" = some (.jobj cfields) →
        cfields.lookup "funded_txo_sum" = none →
        cfields.lookup "spent_txo_sum" = none →
        sync_check_btc (.response 200 (.ok (.jobj fields))) =
          { ok := true, message := "Balance: 0.00000000 BTC" }) ∧
    (∀ (fields cfields : List (String × JVal)) (spent : Int),
        fields.lookup "chain_stats" = some (.jobj cfields) →
        cfields.lookup "funded_txo_sum" = none →
        cfields.lookup "spent_txo_sum" = some (.jint spent) →
        sync_check_btc (.response 200 (.ok (.jobj fields))) =
          { ok := true,
            message := "Balance: " ++ formatFixed 8 (pyDivLit (0 - spent) (10 ^ 8)) ++ " BTC" }) ∧
    (∀ (fields cfields : List (String × JVal)) (funded : Int),
        fields.lookup "chain_stats" = some (.jobj cfields) →
        cfields.lookup "funded_txo_sum" = some (.jint funded) →
        cfields.lookup "spent_txo_sum" = none →
        sync_check_btc (.response 200 (.ok (.jobj fields))) =
          { ok := true,
            message := "Balance: " ++ formatFixed 8 (pyDivLit (funded - 0) (10 ^ 8)) ++ " BTC" }) := by
  refine ⟨?_, ?_, ?_, ?_⟩
  · intro fields h1
    have hx : btcExtract (JVal.jobj fields) = Except.ok (0 - 0) := by
      simp only [btcExtract, dictGetD, h1, Option.getD, jSub]
      rfl
    have h0 : sync_check_btc (.response 200 (.ok (.jobj fields))) =
        { ok := true, message := "Balance: " ++ formatFixed 8 (pyDivLit (0 - 0) (10 ^ 8)) ++ " BTC" } := by
      simp [sync_check_btc, hx]
    rw [h0]
    decide
  · intro fields cfields h1 h2 h3
    have hx : btcExtract (JVal.jobj fields) = Except.ok (0 - 0) := by
      simp only [btcExtract, dictGetD, h1, h2, h3, Option.getD, jSub]
    have h0 : sync_check_btc (.response 200 (.ok (.jobj fields))) =
        { ok := true, message := "Balance: " ++ formatFixed 8 (pyDivLit (0 - 0) (10 ^ 8)) ++ " BTC" } := by
      simp [sync_check_btc, hx]
    rw [h0]
    decide
  · intro fields cfields spent h1 h2 h3
    have hx : btcExtract (JVal.jobj fields) = Except.ok (0 - spent) := by
      simp only [btcExtract, dictGetD, h1, h2, h3, Option.getD, jSub]
    simp [sync_check_btc, hx]
  · intro fields cfields funded h1 h2 h3
    have hx : btcExtract (JVal.jobj fields) = Except.ok (funded - 0) := by
      simp only [btcExtract, dictGetD, h1, h2, h3, Option.getD, jSub]
    simp [sync_check_btc, hx]

/-- Witness for C10: an empty JSON object reports a zero balance, and a
`chain_stats` carrying only `spent_txo_sum = 5` reports the negative
difference as a success. -/
theorem btc_missing_fields_default_zero_witness :
    sync_check_btc (.response 200 (.ok (.jobj []))) =
      { ok := true, message := "Balance: 0.00000000 BTC" } ∧
    sync_check_btc (.response 200 (.ok (.jobj [("chain_stats",
        .jobj [("spent_txo_sum", .jint 5)])]))) =
      { ok := true, message := "Balance: -0.00000005 BTC" } := by
  constructor
  · exact btc_missing_fields_default_zero.1 [] rfl
  · rw [btc_missing_fields_default_zero.2.2.1
      [("chain_stats", .jobj [("spent_txo_sum", .jint 5)])]
      [("spent_txo_sum", .jint 5)] 5 rfl rfl rfl]
    decide

/-- C4: each of the four checkers yields a successful outcome exactly when
every fallible step succeeded — every modelled error event (library raise,
connection failure, non-200 status, parse failure, missing field,
conversion failure) produces a terminal failure outcome — and every
outcome, success or failure, carries a nonempty message. -/
theorem chain_errors_become_outcomes :
    (∀ (env : EvmEnv) (addr : List Char),
        ((sync_check_rpc_native env addr).ok = true ↔ env.allCallsOk addr) ∧
        (sync_check_rpc_native env addr).message ≠ "") ∧
    (∀ (env : TokenEnv) (addr tok : List Char),
        ((sync_check_rpc_token env addr tok).ok = true ↔ env.allCallsOk addr tok) ∧
        (sync_check_rpc_token env addr tok).message ≠ "") ∧
    (∀ ev : HttpEvent,
        ((sync_check_btc ev).ok = true ↔ btcFetchOk ev) ∧
        (sync_check_btc ev).message ≠ "") ∧
    (∀ ev : HttpEvent,
        ((sync_check_ton ev).ok = true ↔ tonFetchOk ev) ∧
        (sync_check_ton ev).message ≠ "") :=
  ⟨fun env addr => ⟨native_ok_iff env addr, native_msg_ne env addr⟩,
   fun env addr tok => ⟨token_ok_iff env addr tok, token_msg_ne env addr tok⟩,
   fun ev => ⟨btc_ok_iff ev, btc_msg_ne ev⟩,
   fun ev => ⟨ton_ok_iff ev, ton_msg_ne ev⟩⟩

/-- Witness for C4 at concrete error events for all four checkers. -/
theorem chain_errors_become_outcomes_witness :
    (sync_check_rpc_native ⟨false, .ok (), .ok true, .ok true,
        fun a => .ok a, fun _ => .ok 0, fun _ => .ok 0⟩ ['a']).ok ≠ true ∧
    (sync_check_rpc_token ⟨true, .error "boom", .ok true, .ok true,
        fun a => .ok a, fun _ _ => .ok 0⟩ ['a'] ['b']).ok ≠ true ∧
    (sync_check_btc (.raised "timeout")).ok ≠ true ∧
    (sync_check_btc (.raised "timeout")).message ≠ "" ∧
    (sync_check_ton (.response 200 (.error "parse"))).ok ≠ true ∧
    (sync_check_ton (.response 200 (.error "parse"))).message ≠ "" := by
  refine ⟨?_, ?_, ?_, ?_, ?_, ?_⟩
  · intro hh
    obtain ⟨hw, -⟩ := (chain_errors_become_outcomes.1 _ ['a']).1.mp hh
    exact Bool.noConfusion hw
  · intro hh
    obtain ⟨-, ⟨u, hpu⟩, -⟩ := (chain_errors_become_outcomes.2.1 _ ['a'] ['b']).1.mp hh
    exact Except.noConfusion hpu
  · intro hh
    obtain ⟨j, bal, hje, -⟩ := (chain_errors_become_outcomes.2.2.1 _).1.mp hh
    exact HttpEvent.noConfusion hje
  · exact (chain_errors_become_outcomes.2.2.1 _).2
  · intro hh
    obtain ⟨j, v, n, hje, -, -⟩ := (chain_errors_become_outcomes.2.2.2 _).1.mp hh
    injection hje with h1 h2
    exact Except.noConfusion h2
  · exact (chain_errors_become_outcomes.2.2.2 _).2

/-- C2 counterexample: the token display divide runs in binary64, and at
magnitude `2^256` the rendered approximate display differs from the exact
value `2^256 / 10^18` rendered to the same 6 fractional digits, so the
display is not computed with exact arithmetic. -/
theorem token_display_precision_counterexample :
    formatFixed 6 (pyDivLit (2 ^ 256) (10 ^ 18)) ≠
      formatFixed 6 (Frac.mk (2 ^ 256) (10 ^ 18)) := by
  decide

/-- C2 (amended): the token checker reports the raw integer magnitude
exactly in its message, and the approximate display divides in binary64
floating point: it is exact at small magnitudes such as `10^18`, but at
magnitude `2^256` the displayed string no longer equals the exact
`magnitude / 10^18` rendered to 6 fractional digits. -/
theorem token_display_float_behaviour :
    (∀ bal : Int, mentions (toString bal) (tokenBalanceMsg bal)) ∧
    formatFixed 6 (pyDivLit (10 ^ 18) (10 ^ 18)) = "1.000000" ∧
    formatFixed 6 (pyDivLit (2 ^ 256) (10 ^ 18)) ≠
      formatFixed 6 (Frac.mk (2 ^ 256) (10 ^ 18)) := by
  refine ⟨?_, by decide, by decide⟩
  intro bal
  refine ⟨"Token balance (raw): ",
    "  (display approx: " ++ formatFixed 6 (pyDivLit bal (10 ^ 18)) ++ ")", ?_⟩
  unfold tokenBalanceMsg
  simp [String.append_assoc]
